import Mathlib

/-!
Verification development for the goeval repository (a small Go-expression
interpreter).  The definitions below are a shallow embedding of the code in
`eval.go` and `biultins.go`:

* `Scope` embeds the `Scope` struct (a frame of variables plus a parent
  pointer); the chain of parent pointers is rendered as a list of frames whose
  head is the receiver's own frame.  Go's in-place map mutation becomes
  explicit state passing: `Scope.Set` returns the updated chain, and a parent's
  view of the heap after an operation on a child chain is the tail of the
  returned chain (the operations never re-link parents, so the suffix of the
  list is exactly the scope record the parent aliases).
* `Value` is the runtime value model for the dynamic `interface{}` values the
  interpreter manipulates.  Go `int` is modelled as `Int` (no claim below
  exercises 64-bit overflow); strings are Lean `String`s and the byte-level
  operations of the source are used only on ASCII data in the theorems, where
  bytes and characters coincide.  Channels, floats and host functions are
  outside the modelled fragment (no claim depends on them).
* `interpret` embeds `Scope.interpret` for the node kinds the claims exercise
  (basic literals, identifiers, index and slice expressions, assignment,
  block, for, if and range statements).  It is driven by a fuel parameter
  because the source's `for` loop can genuinely diverge; fuel exhaustion is
  reported through the artificial error `EvalErr.fuel`, which no theorem
  depends on.  Go code that returns `(result, err)` becomes a pair of a
  `Except EvalErr Value` and the final scope: the scope is returned even when
  an error occurs because the Go receiver is mutated in place regardless
  (bindings applied before a failure are not rolled back).
* Go runtime panics raised by the `reflect` package (failed type assertions,
  `Len` on a non-sized kind, out-of-range slicing) are modelled by the
  distinguished outcome `EvalErr.goPanic`; they are not ordinary interpreter
  errors in the source either.
-/

namespace Goeval

/-- Runtime type descriptors, embedding the `reflect.Type` values that the
interpreter stores in `builtinTypes` and inside composite values.  Exotic
primitive kinds that no claim inspects are kept abstract under `other`. -/
inductive Ty where
  | int
  | bool
  | string
  | rune
  | iface
  | slice (elem : Ty)
  | mapT (key val : Ty)
  | other (name : String)
deriving DecidableEq

/-- Runtime values (the dynamic `interface{}` data of the interpreter).
`nil` is the nil interface; `slice` and `map` carry their element types so
that `reflect.Zero(...Elem())` (map miss) can be computed; `typ` is a
`reflect.Type` value; `fn` stands for the opaque builtin function values
(`append`, `make`, `len`) — the claims never call them through the bridge. -/
inductive Value where
  | nil
  | bool (b : Bool)
  | int (n : Int)
  | str (s : String)
  | rune (c : Char)
  | slice (elem : Ty) (elems : List Value)
  | map (key val : Ty) (entries : List (Value × Value))
  | typ (t : Ty)
  | fn (name : String)

/-- Whether a value is the nil interface (the `v == nil` tests of the source). -/
def Value.isNil : Value → Bool
  | .nil => true
  | _ => false

/-- Go `==` on the dynamic values the interpreter compares (map-key lookup via
`reflect.Value.MapIndex`).  Values of distinct dynamic type compare unequal;
non-comparable kinds (slices, maps, functions) are modelled as unequal — in Go
such a comparison panics, and no claim exercises it. -/
def valueEq : Value → Value → Bool
  | .nil, .nil => true
  | .bool a, .bool b => a == b
  | .int a, .int b => a == b
  | .str a, .str b => a == b
  | .rune a, .rune b => a == b
  | .typ a, .typ b => a == b
  | _, _ => false

/-- One `Vars` map of a scope, rendered as an association list with unique
keys (first match wins, `frameUpdate` preserves uniqueness). -/
abbrev Frame := List (String × Value)

/-- Read a key from a frame (Go map read: `val, exists := Vars[name]`). -/
def frameLookup : Frame → String → Option Value
  | [], _ => none
  | (k, w) :: rest, n => if k = n then some w else frameLookup rest n

/-- Write a key into a frame (Go map assignment `Vars[name] = val`):
replace the existing binding or add a new one. -/
def frameUpdate : Frame → String → Value → Frame
  | [], n, v => [(n, v)]
  | (k, w) :: rest, n, v =>
      if k = n then (k, v) :: rest else (k, w) :: frameUpdate rest n v

/-- A scope chain: head is the receiver's own `Vars` frame, the tail is the
chain reachable through `Parent`; `[]` is the nil `*Scope` pointer. -/
abbrev Scope := List Frame

/-- Embeds `NewScope`: fresh root scope with an empty `Vars` map. -/
def NewScope : Scope := [[]]

/-- Embeds `Scope.NewChild`: a fresh scope whose parent is the receiver. -/
def Scope.NewChild (s : Scope) : Scope := [] :: s

/-- The search loop of `Scope.Get`: the `(val, exists)` walk from the
receiver towards the root; `none` means `exists` stayed false everywhere. -/
def Scope.lookup : Scope → String → Option Value
  | [], _ => none
  | f :: rest, n =>
      match frameLookup f n with
      | some v => some v
      | none => Scope.lookup rest n

/-- Embeds `Scope.Get`: the function returns only the value; when no scope in
the chain binds the name, the returned `interface{}` is still the nil it was
initialised to, so "not found" and "bound to nil" both come out as `nil`. -/
def Scope.Get (s : Scope) (n : String) : Value :=
  (Scope.lookup s n).getD Value.nil

/-- The walk phase of `Scope.Set`: update the first scope in the chain that
already binds the name; `none` when no scope binds it. -/
def Scope.setWalk : Scope → String → Value → Option Scope
  | [], _, _ => none
  | f :: rest, n, v =>
      if (frameLookup f n).isSome then some (frameUpdate f n v :: rest)
      else (Scope.setWalk rest n v).map (f :: ·)

/-- Embeds `Scope.Set`: overwrite in place at the innermost ancestor that
binds the name, else create the binding in the initiating scope (the head
frame).  The `[]` case is the nil receiver, unreachable in the source. -/
def Scope.Set (s : Scope) (n : String) (v : Value) : Scope :=
  match Scope.setWalk s n v with
  | some s' => s'
  | none =>
      match s with
      | [] => []
      | f :: rest => frameUpdate f n v :: rest

/-- Embeds the `builtins` table of `biultins.go`: builtin constants and the
builtin functions (the latter as opaque callables). -/
def builtins : List (String × Value) :=
  [("nil", Value.nil), ("true", Value.bool true), ("false", Value.bool false),
   ("append", Value.fn "append"), ("make", Value.fn "make"),
   ("len", Value.fn "len")]

/-- Embeds the `builtinTypes` table of `biultins.go` (the full list of names,
with the kinds no claim inspects kept abstract). -/
def builtinTypes : List (String × Ty) :=
  [("bool", Ty.bool), ("byte", Ty.other "byte"), ("rune", Ty.rune),
   ("string", Ty.string), ("int", Ty.int), ("int8", Ty.other "int8"),
   ("int16", Ty.other "int16"), ("int32", Ty.other "int32"),
   ("int64", Ty.other "int64"), ("uint", Ty.other "uint"),
   ("uint8", Ty.other "uint8"), ("uint16", Ty.other "uint16"),
   ("uint32", Ty.other "uint32"), ("uint64", Ty.other "uint64"),
   ("uintptr", Ty.other "uintptr"), ("float32", Ty.other "float32"),
   ("float64", Ty.other "float64"), ("complex64", Ty.other "complex64"),
   ("complex128", Ty.other "complex128"), ("error", Ty.other "error")]

/-- Lookup in the `builtinTypes` map. -/
def builtinTypesLookup (n : String) : Option Ty :=
  (builtinTypes.find? (fun p => p.1 = n)).map (·.2)

/-- Lookup in the `builtins` map. -/
def builtinsLookup (n : String) : Option Value :=
  (builtins.find? (fun p => p.1 = n)).map (·.2)

/-- The error outcomes of the modelled fragment.  Each constructor stands for
one distinct error produced by the source (the comment quotes the message),
except `goPanic`, which models a Go runtime panic raised inside the
interpreter (failed type assertion, `reflect` call on an unsupported kind),
and `fuel`, the fuel-exhaustion artifact of the embedding. -/
inductive EvalErr where
  | fuel
  | unknownNode                       -- "goeval: unknown NODE %#v" (also hit by a nil child node)
  | typeNotFound (name : String)      -- "goeval: type %s not found"
  | indexNotInt                       -- "goeval: index must be an int not %T"
  | indexOutOfRange                   -- "slice index result of range"
  | sliceNotInt                       -- "goeval: slice indexe must be an ints not %T and %T"
  | sliceOutOfBounds                  -- "slice: index result of bounds"
  | assignMismatch (l r : Nat)        -- "goeval: assignment mismatch: %d != %d"
  | varNotDefined (name : String)     -- "goeval: variable %#v not defined"
  | unknownAssignTarget               -- "goeval: unknown assignment type %#v"
  | rangeUnsupported                  -- "goeval: range unsupported on %s"
  | litParse                          -- error returned by strconv.ParseInt
  | goPanic
deriving DecidableEq

/-- The `ast.Object` kinds the interpreter inspects on an identifier.
The parser attaches no object (`none`) in some positions, the sentinel
"unresolved" object of kind `Bad` to free identifiers, and `Var`/`Typ`
objects to identifiers it resolved to declarations. -/
inductive ObjKind where
  | bad
  | typ
  | var_
deriving DecidableEq

/-- The `token.Token` kinds of a basic literal in the modelled fragment.
The source also evaluates FLOAT/IMAG literals through `strconv.ParseFloat`
(IEEE-754 floating point, outside this embedding; no claim touches them). -/
inductive LitKind where
  | int
  | char
  | string
deriving DecidableEq

/-- Assignment tokens of the modelled fragment: `:=` and `=`.  The compound
forms (`+=`, ...) desugar through the operator engine `binaryOp`, whose file
is not part of the sources under verification; no claim depends on them. -/
inductive Tok where
  | define
  | assign
deriving DecidableEq

/-- Expressions of the modelled fragment of the Go AST.  `basicLit` carries
the raw token text (`expr.Value`); `ident` carries `expr.Name` and the kind of
`expr.Obj`; `sliceE` has nilable bounds exactly like `ast.SliceExpr`. -/
inductive Expr where
  | basicLit (kind : LitKind) (raw : String)
  | ident (name : String) (obj : Option ObjKind)
  | index (x idx : Expr)
  | sliceE (x : Expr) (low high : Option Expr)
  | paren (x : Expr)

/-- Statements of the modelled fragment.  Fields that are nilable pointers in
`go/ast` (`Init`, `Cond`, `Post`, `Else`) are `Option`s; a `none` child passed
to `interpret` reproduces the Go type switch falling through to the
"unknown NODE" default on a nil `ast.Node`.  `rangeStmt`'s key/value are the
names of the key/value identifiers (`none` when absent; the source asserts
`.(*ast.Ident)` on them). -/
inductive Stmt where
  | assign (lhs : List Expr) (tok : Tok) (rhs : List Expr)
  | block (stmts : List Stmt)
  | exprStmt (x : Expr)
  | forStmt (init : Option Stmt) (cond : Option Expr) (post : Option Stmt) (body : Stmt)
  | ifStmt (init : Option Stmt) (cond : Expr) (body : Stmt) (els : Option Stmt)
  | rangeStmt (key value : Option String) (x : Expr) (body : Stmt)

/-- An `ast.Node` of the modelled fragment. -/
inductive Node where
  | expr (e : Expr)
  | stmt (st : Stmt)

/-- Numeric value of a digit character, as `strconv` accepts it. -/
def digitVal (c : Char) : Option Nat :=
  if '0' ≤ c ∧ c ≤ '9' then some (c.toNat - '0'.toNat)
  else if 'a' ≤ c ∧ c ≤ 'f' then some (c.toNat - 'a'.toNat + 10)
  else if 'A' ≤ c ∧ c ≤ 'F' then some (c.toNat - 'A'.toNat + 10)
  else none

/-- Accumulate digits in the given base; `none` on an empty digit list or a
digit out of range for the base. -/
def parseDigits (base : Nat) : List Char → Nat → Option Nat
  | [], acc => some acc
  | c :: rest, acc =>
      match digitVal c with
      | some d => if d < base then parseDigits base rest (acc * base + d) else none
      | none => none

/-- Embeds `strconv.ParseInt(raw, 0, 64)` as called on an INT literal token:
base auto-detection from the `0x`/`0o`/`0b` prefix (bare leading zero means
octal), 64-bit range check.  Tokens never carry a sign.  Underscore digit
separators are omitted from the model (no theorem below uses them). -/
def parseGoInt (raw : String) : Except EvalErr Int :=
  let cs := raw.toList
  let (base, ds) :=
    match cs with
    | '0' :: 'x' :: rest => (16, rest)
    | '0' :: 'X' :: rest => (16, rest)
    | '0' :: 'o' :: rest => (8, rest)
    | '0' :: 'O' :: rest => (8, rest)
    | '0' :: 'b' :: rest => (2, rest)
    | '0' :: 'B' :: rest => (2, rest)
    | '0' :: rest => if rest.isEmpty then (10, cs) else (8, rest)
    | _ => (10, cs)
  match ds with
  | [] => .error .litParse
  | _ =>
      match parseDigits base ds 0 with
      | none => .error .litParse
      | some v => if v < 2 ^ 63 then .ok (Int.ofNat v) else .error .litParse

/-- Embeds the `*ast.BasicLit` case of `interpret`:
INT runs through `strconv.ParseInt`; CHAR yields the rune of the byte right
after the opening quote (`expr.Value[1]`); STRING yields the raw token text
strictly between the delimiters (`expr.Value[1 : len-1]`) with escape
sequences left undecoded.  A token shorter than the delimiters would make the
byte indexing panic in Go (`goPanic`); the parser never produces one. -/
def litEval : LitKind → String → Except EvalErr Value
  | .int, raw => (parseGoInt raw).map Value.int
  | .char, raw =>
      match raw.toList with
      | _ :: c :: _ => .ok (.rune c)
      | _ => .error .goPanic
  | .string, raw =>
      if 2 ≤ raw.length then .ok (.str ((raw.drop 1).dropRight 1))
      else .error .goPanic

/-- Embeds `reflect.Zero(t).Interface()` for the modelled kinds (map miss in
the `*ast.IndexExpr` case).  Go's zero of a slice/map type is a typed nil
slice/map, observationally a length-0 container here; kinds the claims never
take the zero of are collapsed to the nil interface. -/
def zeroOfTy : Ty → Value
  | .int => .int 0
  | .bool => .bool false
  | .string => .str ""
  | .rune => .rune (Char.ofNat 0)
  | .iface => .nil
  | .slice t => .slice t []
  | .mapT k v => .map k v []
  | .other _ => .nil

/-- The kinds on which `reflect.Value.Len` is defined (Array, Chan, Map,
Slice, String); `none` means the call panics. -/
def lenOf : Value → Option Nat
  | .slice _ elems => some elems.length
  | .map _ _ entries => some entries.length
  | .str s => some s.length
  | _ => none

/-- Embeds `xVal.Index(i).Interface()` after the bound check of the
`*ast.IndexExpr` case.  Indexing a string yields the byte at that position
(uint8 in Go, modelled as its integer value).  Other kinds are unreachable:
`lenOf` rejected them and maps took the earlier branch. -/
def elemAt : Value → Nat → Value
  | .slice _ elems, i => elems.getD i .nil
  | .str s, i => .int (s.toList.getD i (Char.ofNat 0)).toNat
  | _, _ => .nil

/-- Embeds the `*ast.IndexExpr` case of `interpret` after both sub-expressions
are evaluated: a map miss returns the zero value of the map's value type; any
other kind requires an `int` index (`i.(int)`) within `[0, len)`, the bound
violation being the "slice index result of range" error.  Indexing the nil
interface panics in Go (`reflect.TypeOf(nil).Kind()` on a nil Type), as does
`xVal.Len()` on a kind with no length. -/
def indexEval (X i : Value) : Except EvalErr Value :=
  match X with
  | .nil => .error .goPanic
  | .map _ vt entries =>
      match entries.find? (fun p => valueEq p.1 i) with
      | some p => .ok p.2
      | none => .ok (zeroOfTy vt)
  | _ =>
      match i with
      | .int iv =>
          match lenOf X with
          | none => .error .goPanic
          | some L => if (L : Int) ≤ iv ∨ iv < 0 then .error .indexOutOfRange
                      else .ok (elemAt X iv.toNat)
      | _ => .error .indexNotInt

/-- Embeds `xVal.Slice(low, high).Interface()` after the bound check of the
`*ast.SliceExpr` case.  `reflect.Value.Slice` is defined on Array, Slice and
String and panics otherwise, and also panics when `low > high` — the source
never checks that ordering. -/
def sliceVal (X : Value) (l h : Nat) : Except EvalErr Value :=
  if h < l then .error .goPanic
  else
    match X with
    | .slice ty elems => .ok (.slice ty ((elems.drop l).take (h - l)))
    | .str s => .ok (.str ((s.drop l).take (h - l)))
    | _ => .error .goPanic

/-- Embeds the `*ast.SliceExpr` case of `interpret` after `Low`, `High` and
`X` are evaluated (in that source order): a nil-interface bound defaults to 0
(low) or to `xVal.Len()` (high, panicking when `X` has no length); both bounds
must then be `int`s; the bound check is `low < 0 || high >= len(X)` with Go's
short-circuit (the `Len` call happens only when `low ≥ 0`). -/
def sliceEval (low high X : Value) : Except EvalErr Value :=
  let low := if low.isNil then Value.int 0 else low
  match (if high.isNil then
           match lenOf X with
           | some L => Except.ok (Value.int (L : Int))
           | none => Except.error EvalErr.goPanic
         else Except.ok high : Except EvalErr Value) with
  | .error e => .error e
  | .ok high =>
      match low, high with
      | .int l, .int h =>
          if l < 0 then .error .sliceOutOfBounds
          else
            match lenOf X with
            | none => .error .goPanic
            | some L => if (L : Int) ≤ h then .error .sliceOutOfBounds
                        else sliceVal X l.toNat h.toNat
      | _, _ => .error .sliceNotInt

/-- Embeds the `*ast.Ident` case of `interpret`:
no object — the identifier evaluates to its own name (a string);
`Bad` (the parser's "unresolved" sentinel) — builtin type name, then builtin
constant/function, then scope lookup, and when all three fail (or the bound
value is the nil interface) again the name itself;
`Typ` — the receiver's own `Vars` map only, else "type not found";
`Var` — scope lookup, else fall through to the interpreter's final
`return nil, nil`. -/
def identEval (s : Scope) (name : String) (obj : Option ObjKind) : Except EvalErr Value :=
  match obj with
  | none => .ok (.str name)
  | some .bad =>
      match builtinTypesLookup name with
      | some t => .ok (.typ t)
      | none =>
          match builtinsLookup name with
          | some v => .ok v
          | none =>
              if (Scope.Get s name).isNil then .ok (.str name)
              else .ok (Scope.Get s name)
  | some .typ =>
      match s with
      | [] => .error (.typeNotFound name)
      | f :: _ =>
          match frameLookup f name with
          | some t => .ok t
          | none => .error (.typeNotFound name)
  | some .var_ =>
      if (Scope.Get s name).isNil then .ok .nil
      else .ok (Scope.Get s name)

/-- A unit of work for `interpret`.  `node` is a call of the source
`interpret` on an `ast.Node`; the remaining constructors are the source's
in-function loops, lifted to recursive calls so that the whole evaluator is
one function structurally recursive on fuel: `forLoop` is one pass of the
`for {}` loop of the `ast.ForStmt` case, `rangeSlice`/`rangeMap` the element
loops of the `ast.RangeStmt` case (with the running index for slices),
`blockRest` the statement loop of the `ast.BlockStmt` case, and `assignRest`
the target loop of the `*ast.AssignStmt` case. -/
inductive Work where
  | node (nd : Node)
  | forLoop (cond : Option Expr) (body : Stmt) (post : Option Stmt)
  | rangeSlice (key value : Option String) (idx : Nat) (items : List Value) (body : Stmt)
  | rangeMap (key value : Option String) (entries : List (Value × Value)) (body : Stmt)
  | blockRest (stmts : List Stmt)
  | assignRest (pairs : List (Expr × Expr)) (tok : Tok)

/-- Embeds `Scope.interpret` on the modelled fragment.  The result is the
`(interface{}, error)` pair of the source together with the receiver's state
after the call (the Go method mutates `s` in place, so the state survives even
a failing call).  A `none` child stands for a nil `ast.Node`, which the
source's type switch sends to the "unknown NODE" default.  Fuel decreases on
every recursive call; `EvalErr.fuel` never occurs in the runs below. -/
def interpret (fuel : Nat) (s : Scope) (w : Work) : (Except EvalErr Value) × Scope :=
  match fuel with
  | 0 => (.error .fuel, s)
  | n + 1 =>
    match w with
    | .node (.expr e) =>
      match e with
      | .basicLit k raw => (litEval k raw, s)
      | .ident name obj => (identEval s name obj, s)
      | .index xe ie =>
          match interpret n s (.node (.expr xe)) with
          | (.error err, s1) => (.error err, s1)
          | (.ok X, s1) =>
              match interpret n s1 (.node (.expr ie)) with
              | (.error err, s2) => (.error err, s2)
              | (.ok i, s2) => (indexEval X i, s2)
      | .sliceE xe lo hi =>
          match (match lo with
                 | none => ((.error .unknownNode : Except EvalErr Value), s)
                 | some e => interpret n s (.node (.expr e))) with
          | (.error err, s1) => (.error err, s1)
          | (.ok lowV, s1) =>
              match (match hi with
                     | none => ((.error .unknownNode : Except EvalErr Value), s1)
                     | some e => interpret n s1 (.node (.expr e))) with
              | (.error err, s2) => (.error err, s2)
              | (.ok highV, s2) =>
                  match interpret n s2 (.node (.expr xe)) with
                  | (.error err, s3) => (.error err, s3)
                  | (.ok X, s3) => (sliceEval lowV highV X, s3)
      | .paren x => interpret n s (.node (.expr x))
    | .node (.stmt st) =>
      match st with
      | .assign lhs tok rhs =>
          if lhs.length = rhs.length then interpret n s (.assignRest (lhs.zip rhs) tok)
          else (.error (.assignMismatch lhs.length rhs.length), s)
      | .block stmts => interpret n s (.blockRest stmts)
      | .exprStmt x => interpret n s (.node (.expr x))
      | .forStmt init cond post body =>
          match (match init with
                 | none => ((.error .unknownNode : Except EvalErr Value), s)
                 | some st' => interpret n s (.node (.stmt st'))) with
          | (.error err, s1) => (.error err, s1)
          | (.ok _, s1) => interpret n s1 (.forLoop cond body post)
      | .ifStmt init cond body els =>
          match (match init with
                 | none => ((.error .unknownNode : Except EvalErr Value), s)
                 | some st' => interpret n s (.node (.stmt st'))) with
          | (_, s1) =>
              match interpret n s1 (.node (.expr cond)) with
              | (.error err, s2) => (.error err, s2)
              | (.ok c, s2) =>
                  match c with
                  | .bool true => interpret n s2 (.node (.stmt body))
                  | .bool false =>
                      match els with
                      | some e => interpret n s2 (.node (.stmt e))
                      | none => (.ok .nil, s2)
                  | _ => (.error .goPanic, s2)
      | .rangeStmt key value xe body =>
          match interpret n s (.node (.expr xe)) with
          | (.error err, s1) => (.error err, s1)
          | (.ok xv, s1) =>
              match xv with
              | .slice _ elems => interpret n s1 (.rangeSlice key value 0 elems body)
              | .map _ _ entries => interpret n s1 (.rangeMap key value entries body)
              | _ => (.error .rangeUnsupported, s1)
    | .forLoop cond body post =>
        match (match cond with
               | none => ((.error .unknownNode : Except EvalErr Value), s)
               | some e => interpret n s (.node (.expr e))) with
        | (.error err, s1) => (.error err, s1)
        | (.ok c, s1) =>
            match c with
            | .bool false => (.ok .nil, s1)
            | .bool true =>
                match interpret n s1 (.node (.stmt body)) with
                | (_, s2) =>
                    match (match post with
                           | none => ((.error .unknownNode : Except EvalErr Value), s2)
                           | some st' => interpret n s2 (.node (.stmt st'))) with
                    | (_, s3) => interpret n s3 (.forLoop cond body post)
            | _ => (.error .goPanic, s1)
    | .rangeSlice key value i items body =>
        match items with
        | [] => (.ok .nil, s)
        | x :: rest =>
            let s1 := match key with
                      | some k => Scope.Set s k (.int i)
                      | none => s
            let s2 := match value with
                      | some vn => Scope.Set s1 vn x
                      | none => s1
            match interpret n s2 (.node (.stmt body)) with
            | (_, s3) => interpret n s3 (.rangeSlice key value (i + 1) rest body)
    | .rangeMap key value entries body =>
        match entries with
        | [] => (.ok .nil, s)
        | (kv, vv) :: rest =>
            let s1 := match key with
                      | some k => Scope.Set s k kv
                      | none => s
            let s2 := match value with
                      | some vn => Scope.Set s1 vn vv
                      | none => s1
            match interpret n s2 (.node (.stmt body)) with
            | (_, s3) => interpret n s3 (.rangeMap key value rest body)
    | .blockRest stmts =>
        match stmts with
        | [] => (.ok .nil, s)
        | [st] => interpret n s (.node (.stmt st))
        | st :: rest =>
            match interpret n s (.node (.stmt st)) with
            | (.error err, s1) => (.error err, s1)
            | (.ok _, s1) => interpret n s1 (.blockRest rest)
    | .assignRest pairs tok =>
        match pairs with
        | [] => (.ok .nil, s)
        | (lh, rhe) :: rest =>
            match interpret n s (.node (.expr rhe)) with
            | (.error err, s1) => (.error err, s1)
            | (.ok rh, s1) =>
                match lh with
                | .ident name _ =>
                    if (Scope.Get s1 name).isNil ∧ tok ≠ Tok.define then
                      (.error (.varNotDefined name), s1)
                    else
                      interpret n (Scope.Set s1 name rh) (.assignRest rest tok)
                | _ => (.error .unknownAssignTarget, s1)

/-- The result of the `Len` builtin as observed by a caller: either the length
(and a nil error — the function's error result is always nil), or a Go
runtime panic raised inside `reflect.Value.Len`. -/
inductive LenResult where
  | ok (n : Int)
  | goPanic
deriving DecidableEq

/-- Embeds `Len` from `biultins.go`: `return reflect.ValueOf(t).Len(), nil`.
`reflect.Value.Len` is defined for the Array, Chan, Map, Slice and String
kinds and panics on every other kind; the function body contains no type
check and never returns a non-nil error. -/
def Len (t : Value) : LenResult :=
  match lenOf t with
  | some L => .ok (L : Int)
  | none => .goPanic

/-- The `Set` walk finds a scope to update exactly when the `Get` walk finds
a binding. -/
theorem setWalk_isSome_eq_lookup_isSome (s : Scope) (n : String) (v : Value) :
    (Scope.setWalk s n v).isSome = (Scope.lookup s n).isSome := by
  induction s with
  | nil => rfl
  | cons f rest ih =>
      simp only [Scope.setWalk, Scope.lookup]
      cases h : frameLookup f n with
      | some w => simp [h]
      | none => simp [h, ih]

/-- Claim C1: `Set(name, value)` searches the initiating scope, then its
ancestors, for an existing binding; if the initiating scope binds the name it
is overwritten there; if only an ancestor binds it, the binding is overwritten
in place at that ancestor and the initiating frame is left untouched (no
shadowing); if no scope in the chain binds the name, the binding is created in
the initiating scope.  Consequently, for a root `r` with child
`c = r.NewChild()`, after `r.Set("x",1)` and `c.Set("x",2)`, `r.Get("x")`
(the tail of the updated chain is exactly `r`'s view of the heap) yields 2. -/
theorem set_resolves_to_binding_scope :
    (∀ (f : Frame) (rest : Scope) (n : String) (v : Value),
        (frameLookup f n).isSome →
        Scope.Set (f :: rest) n v = frameUpdate f n v :: rest) ∧
    (∀ (f : Frame) (rest : Scope) (n : String) (v : Value),
        frameLookup f n = none → (Scope.lookup rest n).isSome →
        Scope.Set (f :: rest) n v = f :: Scope.Set rest n v) ∧
    (∀ (f : Frame) (rest : Scope) (n : String) (v : Value),
        Scope.lookup (f :: rest) n = none →
        Scope.Set (f :: rest) n v = frameUpdate f n v :: rest) ∧
    Scope.Get (List.tail
      (Scope.Set (Scope.NewChild (Scope.Set NewScope "x" (.int 1))) "x" (.int 2))) "x"
      = Value.int 2 := by
  refine ⟨?_, ?_, ?_, rfl⟩
  · intro f rest n v h
    simp [Scope.Set, Scope.setWalk, h]
  · intro f rest n v h1 h2
    have h3 : (Scope.setWalk rest n v).isSome := by
      rw [setWalk_isSome_eq_lookup_isSome]; exact h2
    obtain ⟨w, hw⟩ := Option.isSome_iff_exists.mp h3
    simp [Scope.Set, Scope.setWalk, h1, hw]
  · intro f rest n v h
    have h1 : frameLookup f n = none := by
      cases h1 : frameLookup f n with
      | none => rfl
      | some w => simp [Scope.lookup, h1] at h
    have h2 : Scope.lookup rest n = none := by
      simpa [Scope.lookup, h1] using h
    have h3 : Scope.setWalk rest n v = none := by
      have h4 := setWalk_isSome_eq_lookup_isSome rest n v
      rw [h2] at h4
      cases h5 : Scope.setWalk rest n v with
      | none => rfl
      | some w => rw [h5] at h4; simp at h4
    simp [Scope.Set, Scope.setWalk, h1, h3]

/-- Witness for `set_resolves_to_binding_scope`: the three conditional parts
applied at concrete scope chains. -/
theorem set_resolves_to_binding_scope_witness :
    Scope.Set [[("x", Value.int 0)], [("y", Value.int 5)]] "x" (Value.int 1)
      = [[("x", Value.int 1)], [("y", Value.int 5)]] ∧
    Scope.Set [[], [("y", Value.int 5)]] "y" (Value.int 7)
      = [[], [("y", Value.int 7)]] ∧
    Scope.Set [[("x", Value.int 0)]] "z" (Value.int 9)
      = [[("x", Value.int 0), ("z", Value.int 9)]] :=
  ⟨set_resolves_to_binding_scope.1 _ _ _ _ rfl,
   set_resolves_to_binding_scope.2.1 _ _ _ _ rfl rfl,
   set_resolves_to_binding_scope.2.2.1 _ _ _ _ rfl⟩

/-- Claim C4, counterexample: `Get` returns only a value, not a
`(Value, found)` pair — a name bound to `nil` and a name bound nowhere
produce the very same result, even though the internal walk (`Scope.lookup`)
distinguishes them, so no caller of `Get` can tell the two apart. -/
theorem get_collapses_nil_binding :
    Scope.lookup [[("x", Value.nil)]] "x" = some Value.nil ∧
    Scope.lookup [[]] "x" = none ∧
    Scope.Get [[("x", Value.nil)]] "x" = Scope.Get [[]] "x" :=
  ⟨rfl, rfl, rfl⟩

/-- Claim C4, amended: `Get(name)` searches the scope itself, then its
ancestors in order, and returns the bound value, or `nil` when no scope in
the chain binds the name; a binding whose value is `nil` therefore yields the
same result as an absent binding (the found flag exists only inside the
walk and is not returned). -/
theorem get_search_order :
    (∀ (f : Frame) (rest : Scope) (n : String) (v : Value),
        frameLookup f n = some v → Scope.Get (f :: rest) n = v) ∧
    (∀ (f : Frame) (rest : Scope) (n : String),
        frameLookup f n = none → Scope.Get (f :: rest) n = Scope.Get rest n) ∧
    (∀ n, Scope.Get [] n = Value.nil) ∧
    (∀ (s : Scope) (n : String),
        Scope.lookup s n = some Value.nil → Scope.Get s n = Value.nil) ∧
    (∀ (s : Scope) (n : String),
        Scope.lookup s n = none → Scope.Get s n = Value.nil) := by
  refine ⟨?_, ?_, fun n => rfl, ?_, ?_⟩
  · intro f rest n v h
    simp [Scope.Get, Scope.lookup, h]
  · intro f rest n h
    simp [Scope.Get, Scope.lookup, h]
  · intro s n h
    simp [Scope.Get, h]
  · intro s n h
    simp [Scope.Get, h]

/-- Witness for `get_search_order`: the shadowing, delegation and collapse
parts applied at concrete chains. -/
theorem get_search_order_witness :
    Scope.Get [[("x", Value.int 3)], [("x", Value.int 9)]] "x" = Value.int 3 ∧
    Scope.Get [[], [("x", Value.int 9)]] "x" = Scope.Get [[("x", Value.int 9)]] "x" ∧
    Scope.Get [[("x", Value.nil)], [("x", Value.int 9)]] "x" = Value.nil :=
  ⟨get_search_order.1 _ _ _ _ rfl,
   get_search_order.2.1 _ _ _ rfl,
   get_search_order.2.2.2.1 _ _ rfl⟩

/-- Claim C2, counterexample: the body of a three-clause `for` statement is
evaluated with `_, _ = s.interpret(stmt.Body)`, so its error does NOT abort
the loop and does NOT bubble up.  Here the loop body (assigning to the
undefined variable `x` after clearing the flag `ok`) fails with "variable not
defined" when run on its own, yet the enclosing `for` statement returns a nil
result and a nil error. -/
theorem for_body_error_discarded_cex :
    (interpret 40 [[("ok", Value.bool true), ("i", Value.int 0)]]
      (.node (.stmt (.block
        [.assign [.ident "ok" (some .var_)] .assign [.ident "false" (some .bad)],
         .assign [.ident "x" (some .var_)] .assign [.basicLit .int "1"]])))).1
      = .error (.varNotDefined "x") ∧
    (interpret 40 [[("ok", Value.bool true)]]
      (.node (.stmt (.forStmt
        (some (.assign [.ident "i" (some .var_)] .define [.basicLit .int "0"]))
        (some (.ident "ok" (some .bad)))
        none
        (.block
          [.assign [.ident "ok" (some .var_)] .assign [.ident "false" (some .bad)],
           .assign [.ident "x" (some .var_)] .assign [.basicLit .int "1"]]))))).1
      = .ok .nil :=
  ⟨rfl, rfl⟩

/-- Claim C2, amended: the first error aborts the current node and bubbles up
unchanged for most nodes — in particular a `for` statement's init and
condition and an `if` statement's condition propagate errors — but the errors
of a `for` statement's body and post statement, of a `range` statement's
body, and of an `if` statement's init statement are silently discarded (the
loop or statement simply continues).  Each conjunct below pairs a sub-node
that fails on its own with the enclosing statement's observable outcome. -/
theorem loop_error_discard_behavior :
    ((interpret 40 [[("ok", Value.bool true), ("i", Value.int 0)]]
        (.node (.stmt (.assign [.ident "y" (some .var_)] .assign [.basicLit .int "1"])))).1
      = .error (.varNotDefined "y") ∧
     (interpret 40 [[("ok", Value.bool true)]]
        (.node (.stmt (.forStmt
          (some (.assign [.ident "i" (some .var_)] .define [.basicLit .int "0"]))
          (some (.ident "ok" (some .bad)))
          (some (.assign [.ident "y" (some .var_)] .assign [.basicLit .int "1"]))
          (.block [.assign [.ident "ok" (some .var_)] .assign [.ident "false" (some .bad)]]))))).1
      = .ok .nil) ∧
    ((interpret 40 [[("a", Value.slice .int [.int 7])]]
        (.node (.stmt (.assign [.ident "x" (some .var_)] .assign [.basicLit .int "1"])))).1
      = .error (.varNotDefined "x") ∧
     (interpret 40 [[("a", Value.slice .int [.int 7])]]
        (.node (.stmt (.rangeStmt (some "k") none (.ident "a" (some .var_))
          (.block [.assign [.ident "x" (some .var_)] .assign [.basicLit .int "1"]]))))).1
      = .ok .nil) ∧
    ((interpret 40 [[]]
        (.node (.stmt (.assign [.ident "y" (some .var_)] .assign [.basicLit .int "1"])))).1
      = .error (.varNotDefined "y") ∧
     (interpret 40 [[]]
        (.node (.stmt (.ifStmt
          (some (.assign [.ident "y" (some .var_)] .assign [.basicLit .int "1"]))
          (.ident "true" (some .bad))
          (.block []) none)))).1
      = .ok .nil) ∧
    ((interpret 40 [[]]
        (.node (.stmt (.forStmt
          (some (.assign [.ident "y" (some .var_)] .assign [.basicLit .int "1"]))
          (some (.ident "true" (some .bad)))
          none
          (.block []))))).1
      = .error (.varNotDefined "y")) ∧
    ((interpret 40 [[]]
        (.node (.stmt (.forStmt
          (some (.assign [.ident "i" (some .var_)] .define [.basicLit .int "0"]))
          (some (.ident "T" (some .typ)))
          none
          (.block []))))).1
      = .error (.typeNotFound "T")) :=
  ⟨⟨rfl, rfl⟩, ⟨rfl, rfl⟩, ⟨rfl, rfl⟩, rfl, rfl⟩

/-- Claim C3, counterexample: an identifier that is neither a builtin type
name, nor a builtin, nor bound in the scope chain does NOT fail with an
undefined-name error — it evaluates to its own name as a string value. -/
theorem unresolved_ident_yields_name :
    builtinTypesLookup "zzz" = none ∧
    builtinsLookup "zzz" = none ∧
    Scope.lookup [[]] "zzz" = none ∧
    (interpret 9 [[]] (.node (.expr (.ident "zzz" (some .bad))))).1
      = .ok (.str "zzz") :=
  ⟨rfl, rfl, rfl, rfl⟩

/-- Claim C3, amended: an identifier the parser left unresolved resolves as
(a) builtin type name, (b) builtin function/constant, (c) Environment lookup,
in that order; when none of the three applies (or when the environment binds
the name to the nil interface) the identifier evaluates to its own name as a
string value — no error is produced. -/
theorem ident_resolution_order (n : Nat) (s : Scope) (name : String) :
    (∀ t, builtinTypesLookup name = some t →
        interpret (n + 1) s (.node (.expr (.ident name (some .bad))))
          = (.ok (.typ t), s)) ∧
    (∀ v, builtinTypesLookup name = none → builtinsLookup name = some v →
        interpret (n + 1) s (.node (.expr (.ident name (some .bad))))
          = (.ok v, s)) ∧
    (builtinTypesLookup name = none → builtinsLookup name = none →
        (Scope.Get s name).isNil = false →
        interpret (n + 1) s (.node (.expr (.ident name (some .bad))))
          = (.ok (Scope.Get s name), s)) ∧
    (builtinTypesLookup name = none → builtinsLookup name = none →
        (Scope.Get s name).isNil = true →
        interpret (n + 1) s (.node (.expr (.ident name (some .bad))))
          = (.ok (.str name), s)) := by
  refine ⟨?_, ?_, ?_, ?_⟩
  · intro t h
    simp [interpret, identEval, h]
  · intro v h1 h2
    simp [interpret, identEval, h1, h2]
  · intro h1 h2 h3
    simp [interpret, identEval, h1, h2, h3]
  · intro h1 h2 h3
    simp [interpret, identEval, h1, h2, h3]

/-- Witness for `ident_resolution_order`: a builtin type name wins even when
the scope shadows it; a builtin wins over the scope; a plain bound variable
resolves through the environment. -/
theorem ident_resolution_order_witness :
    interpret 9 [[("int", Value.int 42)]] (.node (.expr (.ident "int" (some .bad))))
      = (.ok (.typ Ty.int), [[("int", Value.int 42)]]) ∧
    interpret 9 [[("len", Value.int 42)]] (.node (.expr (.ident "len" (some .bad))))
      = (.ok (.fn "len"), [[("len", Value.int 42)]]) ∧
    interpret 9 [[("a", Value.int 5)]] (.node (.expr (.ident "a" (some .bad))))
      = (.ok (.int 5), [[("a", Value.int 5)]]) :=
  ⟨(ident_resolution_order 8 [[("int", Value.int 42)]] "int").1 Ty.int rfl,
   (ident_resolution_order 8 [[("len", Value.int 42)]] "len").2.1 (Value.fn "len") rfl rfl,
   (ident_resolution_order 8 [[("a", Value.int 5)]] "a").2.2.1 rfl rfl rfl⟩

/-- Claim C5, counterexample: a three-clause `for` statement does NOT run in
a fresh child Environment — the init statement's binding `i` is created in
the very Environment the statement was given and is still bound there after
the loop finishes. -/
theorem loop_binding_persists_cex :
    Scope.lookup (interpret 40 [[("ok", Value.bool true)]]
      (.node (.stmt (.forStmt
        (some (.assign [.ident "i" (some .var_)] .define [.basicLit .int "0"]))
        (some (.ident "ok" (some .bad)))
        none
        (.block [.assign [.ident "ok" (some .var_)] .assign [.ident "false" (some .bad)]]))))).2 "i"
      = some (Value.int 0) :=
  rfl

/-- Claim C5, amended: `for` and `range` statements are interpreted directly
in the Environment they were given — no child scope is created, the chain
keeps its single frame, and the bindings introduced by the loop (the init
variable `i`, the range key `k`) remain in that Environment after the loop
finishes. -/
theorem loops_run_in_given_scope :
    (interpret 40 [[("ok", Value.bool true)]]
      (.node (.stmt (.forStmt
        (some (.assign [.ident "i" (some .var_)] .define [.basicLit .int "0"]))
        (some (.ident "ok" (some .bad)))
        none
        (.block [.assign [.ident "ok" (some .var_)] .assign [.ident "false" (some .bad)]]))))).2
      = [[("ok", Value.bool false), ("i", Value.int 0)]] ∧
    (interpret 40 [[("a", Value.slice .int [.int 7])]]
      (.node (.stmt (.rangeStmt (some "k") none (.ident "a" (some .var_)) (.block []))))).2
      = [[("a", Value.slice .int [.int 7]), ("k", Value.int 0)]] :=
  ⟨rfl, rfl⟩

/-- Claim C6, counterexample: indexing an array/slice with an index that is
not an `int` does NOT yield the out-of-range error — the `i.(int)` assertion
fails first and produces the distinct "index must be an int" error
(`a[true]` here), so "any other index yields IndexOutOfRangeError" is false
for non-integer indices. -/
theorem nonint_index_error_kind_cex :
    (interpret 9 [[("a", Value.slice .int [.int 1, .int 2, .int 3])]]
      (.node (.expr (.index (.ident "a" (some .var_)) (.ident "true" (some .bad)))))).1
      = .error .indexNotInt ∧
    EvalErr.indexNotInt ≠ EvalErr.indexOutOfRange :=
  ⟨rfl, by decide⟩

/-- Claim C6, amended: indexing a map with an absent key returns the zero
value of the map's value type (not an error) and a present key returns its
entry; indexing an array/slice requires an `int` index — a non-`int` index
fails with the "index must be an int" type error, while an `int` index that
is negative or not less than the length fails with `IndexOutOfRangeError`
("slice index result of range"), and an in-range `int` index returns the
element; in particular `a:=[1,2,3]; a[5]` fails with the out-of-range error
and never silently truncates. -/
theorem index_semantics :
    (∀ (kt vt : Ty) (entries : List (Value × Value)) (k : Value),
        entries.find? (fun p => valueEq p.1 k) = none →
        indexEval (.map kt vt entries) k = .ok (zeroOfTy vt)) ∧
    (∀ (kt vt : Ty) (entries : List (Value × Value)) (k : Value) (p : Value × Value),
        entries.find? (fun p => valueEq p.1 k) = some p →
        indexEval (.map kt vt entries) k = .ok p.2) ∧
    (∀ (ty : Ty) (elems : List Value) (iv : Int),
        0 ≤ iv → iv < (elems.length : Int) →
        indexEval (.slice ty elems) (.int iv) = .ok (elems.getD iv.toNat .nil)) ∧
    (∀ (ty : Ty) (elems : List Value) (iv : Int),
        iv < 0 ∨ (elems.length : Int) ≤ iv →
        indexEval (.slice ty elems) (.int iv) = .error .indexOutOfRange) ∧
    (∀ (ty : Ty) (elems : List Value) (i : Value),
        (∀ m : Int, i ≠ .int m) →
        indexEval (.slice ty elems) i = .error .indexNotInt) ∧
    ((interpret 9 [[("m", Value.map .string .int [(.str "tom", .int 3)])]]
        (.node (.expr (.index (.ident "m" (some .var_)) (.basicLit .string "\"jerry\""))))).1
      = .ok (.int 0)) ∧
    ((interpret 9 [[("a", Value.slice .int [.int 1, .int 2, .int 3])]]
        (.node (.expr (.index (.ident "a" (some .var_)) (.basicLit .int "5"))))).1
      = .error .indexOutOfRange) := by
  refine ⟨?_, ?_, ?_, ?_, ?_, rfl, rfl⟩
  · intro kt vt entries k h
    simp [indexEval, h]
  · intro kt vt entries k p h
    simp [indexEval, h]
  · intro ty elems iv h1 h2
    simp only [indexEval, lenOf]
    rw [if_neg (by omega)]
    simp [elemAt]
  · intro ty elems iv h
    simp only [indexEval, lenOf]
    rw [if_pos (by omega)]
  · intro ty elems i h
    cases i with
    | int m => exact absurd rfl (h m)
    | nil => rfl
    | bool b => rfl
    | str st => rfl
    | rune c => rfl
    | slice t es => rfl
    | map kt vt es => rfl
    | typ t => rfl
    | fn nm => rfl

/-- Witness for `index_semantics`: the map-miss, in-range, out-of-range and
non-int parts applied at concrete values. -/
theorem index_semantics_witness :
    indexEval (.map .string .int [(.str "tom", .int 3)]) (.str "jerry")
      = .ok (.int 0) ∧
    indexEval (.slice .int [.int 7, .int 8]) (.int 1) = .ok (.int 8) ∧
    indexEval (.slice .int [.int 7, .int 8]) (.int 5) = .error .indexOutOfRange ∧
    indexEval (.slice .int [.int 7, .int 8]) (.bool true) = .error .indexNotInt :=
  ⟨index_semantics.1 _ _ _ _ rfl,
   index_semantics.2.2.1 _ _ 1 (by decide) (by decide),
   index_semantics.2.2.2.1 _ _ 5 (Or.inr (by decide)),
   index_semantics.2.2.2.2.1 _ _ _ (fun m h => by cases h)⟩

/-- Claim C7: the slice-expression code contradicts itself.  Its own defaults
say a missing high bound means the length of `x` (`high = xVal.Len()`), yet
its bound check rejects `high >= xVal.Len()`, so the in-range slice `a[0:3]`
of a three-element slice fails with the out-of-bounds error; and a missing
bound never even reaches the default, because `s.interpret(nil)` falls into
the type switch's "unknown NODE" default first, so `a[:2]` fails too.  Only
slices with both bounds explicit and `high < len` succeed (`a[1:2]`). -/
theorem slice_expr_bound_bug :
    ((interpret 9 [[("a", Value.slice .int [.int 1, .int 2, .int 3])]]
        (.node (.expr (.sliceE (.ident "a" (some .var_))
          (some (.basicLit .int "0")) (some (.basicLit .int "3")))))).1
      = .error .sliceOutOfBounds) ∧
    ((interpret 9 [[("a", Value.slice .int [.int 1, .int 2, .int 3])]]
        (.node (.expr (.sliceE (.ident "a" (some .var_))
          none (some (.basicLit .int "2")))))).1
      = .error .unknownNode) ∧
    ((interpret 9 [[("a", Value.slice .int [.int 1, .int 2, .int 3])]]
        (.node (.expr (.sliceE (.ident "a" (some .var_))
          (some (.basicLit .int "1")) (some (.basicLit .int "2")))))).1
      = .ok (.slice .int [.int 2])) :=
  ⟨rfl, rfl, rfl⟩

/-- Claim C8, counterexample: a multi-target assignment with a single
right-hand sequence whose length matches the left-hand count is NOT
destructured — `x, y := p` with `p` a two-element slice fails with the
assignment-count error `2 != 1`. -/
theorem destructuring_rejected_cex :
    (interpret 9 [[("p", Value.slice .int [.int 1, .int 2])]]
      (.node (.stmt (.assign
        [.ident "x" (some .var_), .ident "y" (some .var_)]
        .define
        [.ident "p" (some .var_)])))).1
      = .error (.assignMismatch 2 1) :=
  rfl

/-- Claim C8, amended: a multi-target assignment requires the left-hand and
right-hand counts to be exactly equal — any mismatch, including the
single-right-hand-sequence destructuring form, fails with the
assignment-count error before any target is assigned; with equal counts the
targets are assigned pairwise. -/
theorem assign_requires_equal_counts :
    (∀ (n : Nat) (s : Scope) (lhs rhs : List Expr) (tok : Tok),
        lhs.length ≠ rhs.length →
        interpret (n + 1) s (.node (.stmt (.assign lhs tok rhs)))
          = (.error (.assignMismatch lhs.length rhs.length), s)) ∧
    (interpret 9 [[]]
      (.node (.stmt (.assign
        [.ident "x" (some .var_), .ident "y" (some .var_)]
        .define
        [.basicLit .int "1", .basicLit .int "2"])))
      = (.ok .nil, [[("x", Value.int 1), ("y", Value.int 2)]])) := by
  refine ⟨?_, rfl⟩
  intro n s lhs rhs tok h
  simp [interpret, h]

/-- Witness for `assign_requires_equal_counts`: the count check applied at a
concrete mismatched assignment. -/
theorem assign_requires_equal_counts_witness :
    interpret 9 [[]] (.node (.stmt (.assign [.ident "x" (some .var_)] .assign [])))
      = (.error (.assignMismatch 1 0), [[]]) :=
  assign_requires_equal_counts.1 8 [[]] _ _ _ (by decide)

/-- Claim C9, counterexample: `len` applied to a value that is neither
sequence, map, string nor channel does NOT return a `TypeError` as a normal
error result — `Len` has no type check at all, and `reflect.ValueOf(t).Len()`
panics on an `int` argument (a process-level failure unless the host
recovers). -/
theorem len_on_int_panics_cex :
    Len (Value.int 5) = LenResult.goPanic :=
  rfl

/-- Claim C9, amended: `len(value)` returns the length as an `int` for
sequence (array/slice), map and string values (channels are outside the
modelled fragment); for a value of any other kind the underlying
`reflect.Value.Len` call panics — no `TypeError` is ever returned, as the
function's error result is always nil. -/
theorem len_behavior :
    (∀ (ty : Ty) (elems : List Value), Len (.slice ty elems) = .ok (elems.length : Int)) ∧
    (∀ (kt vt : Ty) (entries : List (Value × Value)),
        Len (.map kt vt entries) = .ok (entries.length : Int)) ∧
    (∀ st : String, Len (.str st) = .ok (st.length : Int)) ∧
    (∀ m : Int, Len (.int m) = .goPanic) ∧
    (∀ b : Bool, Len (.bool b) = .goPanic) ∧
    (∀ c : Char, Len (.rune c) = .goPanic) ∧
    Len Value.nil = .goPanic :=
  ⟨fun _ _ => rfl, fun _ _ _ => rfl, fun _ => rfl,
   fun _ => rfl, fun _ => rfl, fun _ => rfl, rfl⟩

/-- Claim C10: a string literal evaluates to exactly the raw token text
strictly between its first and last character, escape sequences left
undecoded — the token `"a\nb"` (six source characters) evaluates to the
four characters `a`, backslash, `n`, `b`, which differ from the
three-character string containing a newline — and a char literal evaluates
to the rune of the single character immediately after the opening quote. -/
theorem literal_raw_semantics (raw : String) (n : Nat) (s : Scope) :
    (2 ≤ raw.length →
        interpret (n + 1) s (.node (.expr (.basicLit .string raw)))
          = (.ok (.str ((raw.drop 1).dropRight 1)), s)) ∧
    (∀ (c0 c : Char) (rest : List Char), raw.toList = c0 :: c :: rest →
        interpret (n + 1) s (.node (.expr (.basicLit .char raw)))
          = (.ok (.rune c), s)) ∧
    ((interpret (n + 1) s (.node (.expr (.basicLit .string "\"a\\nb\"")))).1
      = .ok (.str "a\\nb")) ∧
    ("a\\nb".length = 4 ∧ "a\\nb" ≠ "a\nb") ∧
    ((interpret (n + 1) s (.node (.expr (.basicLit .char
        (String.mk [Char.ofNat 39, 'a', Char.ofNat 39]))))).1
      = .ok (.rune 'a')) := by
  refine ⟨?_, ?_, rfl, ⟨rfl, by decide⟩, rfl⟩
  · intro h
    simp [interpret, litEval, h]
  · intro c0 c rest h
    have h2 : raw.data = c0 :: c :: rest := h
    simp [interpret, litEval, h2]

/-- Witness for `literal_raw_semantics`: both conditional parts applied at
concrete tokens. -/
theorem literal_raw_semantics_witness :
    interpret 9 [[]] (.node (.expr (.basicLit .string "\"ab\"")))
      = (.ok (.str "ab"), [[]]) ∧
    interpret 9 [[]] (.node (.expr (.basicLit .char
        (String.mk [Char.ofNat 39, 'b', Char.ofNat 39]))))
      = (.ok (.rune 'b'), [[]]) :=
  ⟨(literal_raw_semantics "\"ab\"" 8 [[]]).1 (by decide),
   (literal_raw_semantics (String.mk [Char.ofNat 39, 'b', Char.ofNat 39]) 8 [[]]).2.1
     (Char.ofNat 39) 'b' [Char.ofNat 39] rfl⟩

end Goeval
